import Mathlib

/-!
Verification of the Learn-Stack-Backend user/role/tenant management module.

A shallow embedding of the data model (`modules/users/models.py`), the tenant
resolution middleware (`lms_project/middleware/tenant.py`), the application
services (`modules/users/services.py`) and the role seeding command
(`modules/users/management/commands/seed_default_roles.py`), together with
theorems settling the specification claims about them.

Modelling conventions:
- Django model rows become Lean structures; foreign keys are stored as the
  referenced row's numeric id (mirroring the `*_id` database columns).
- The database is a `Store` of row lists plus per-table autoincrement counters.
- Database unique constraints (from each model's `Meta`) are checked explicitly
  at insert time; a violated constraint makes the operation return `.error`
  with the store unchanged, which also models `transaction.atomic` rollback.
- The JWT decode primitive and the password hash/verify primitives are opaque
  external collaborators, so the embedded functions are parametrised over them.
- Python truthiness tests on strings / integers / `None` are translated as the
  corresponding emptiness / zero / `Option.none` tests.
-/

namespace LMS

/-! ## Data model (modules/users/models.py) -/

/-- A row of the `tenants` table (fields used by the verified claims). -/
structure Tenant where
  id : Nat
  name : String
  subdomain : String
  is_active : Bool
  deriving Repr, DecidableEq

/-- A row of the `users` table (fields used by the verified claims).
`password` is the stored opaque hash; `none` models Django's unusable/empty
password for an account created without one. `tenant` is the owning tenant id. -/
structure User where
  id : Nat
  tenant : Nat
  username : String
  email : String
  password : Option String
  first_name : String
  last_name : String
  phone_number : String
  bio : String
  is_active : Bool
  is_staff : Bool
  is_verified : Bool
  timezone : String
  language : String
  deriving Repr, DecidableEq

/-- A row of the `roles` table. -/
structure Role where
  id : Nat
  tenant : Nat
  name : String
  description : String
  permissions : List String
  is_system_role : Bool
  deriving Repr, DecidableEq

/-- A row of the `user_roles` table; `user`, `role`, `tenant`, `assigned_by`
are row ids. -/
structure UserRole where
  id : Nat
  user : Nat
  role : Nat
  tenant : Nat
  assigned_by : Option Nat
  deriving Repr, DecidableEq

/-! ## Tenant resolution middleware (lms_project/middleware/tenant.py) -/

/-- The decoded claims of a bearer token that matter to tenant resolution:
`payload.get("tenant_id")`. -/
structure JwtPayload where
  tenant_id : Option Nat
  deriving Repr, DecidableEq

/-- The parts of an inbound HTTP request read by `TenantMiddleware`.
`http_authorization` models `request.META.get("HTTP_AUTHORIZATION", "")`
(absent header = `""`); `x_tenant` models the `X-Tenant` header;
`host` models `request.get_host()`. -/
structure Request where
  path : String
  http_authorization : String
  x_tenant : Option String
  host : String
  deriving Repr, DecidableEq

/-- Python's `str.startswith`, via the character list (kernel-computable). -/
def starts_with (s pre : String) : Bool :=
  pre.data.isPrefixOf s.data

/-- Python's `str.split(sep)` for a one-character separator, via the character
list (kernel-computable). Like Python, splitting the empty string yields
`[""]` and consecutive separators yield empty pieces. -/
def split_char (sep : Char) (s : String) : List String :=
  (s.data.foldr
    (fun c acc => if c = sep then [] :: acc else (c :: acc.headD []) :: acc.drop 1)
    [[]]).map String.mk

/-- Embeds `TenantMiddleware.EXCLUDED_PATHS`. -/
def EXCLUDED_PATHS : List String :=
  ["/admin/", "/api/v1/auth/token/", "/api/v1/auth/register/", "/api/v1/tenants/"]

/-- Embeds `TenantMiddleware._should_skip_tenant_check`. -/
def should_skip_tenant_check (req : Request) : Bool :=
  EXCLUDED_PATHS.any (fun p => starts_with req.path p)

/-- Embeds `TenantMiddleware._get_tenant_from_jwt`, parametrised over the external
`jwt.decode` primitive (`none` models a decode exception, which the source
catches and turns into `return None`). `if tenant_id:` is Python truthiness,
so a missing or zero claim is skipped. -/
def get_tenant_from_jwt (decodeJwt : String → Option JwtPayload)
    (tenants : List Tenant) (req : Request) : Option Tenant :=
  if starts_with req.http_authorization "Bearer " then
    match decodeJwt ((split_char ' ' req.http_authorization).getD 1 "") with
    | some payload =>
      match payload.tenant_id with
      | some tid =>
        if tid ≠ 0 then tenants.find? (fun t => t.id == tid && t.is_active) else none
      | none => none
    | none => none
  else none

/-- Embeds `TenantMiddleware._get_tenant_from_header`: look up an active tenant by the
`X-Tenant` header value (`if subdomain:` skips an empty value). -/
def get_tenant_from_header (tenants : List Tenant) (req : Request) : Option Tenant :=
  match req.x_tenant with
  | some sub =>
    if sub ≠ "" then tenants.find? (fun t => t.subdomain == sub && t.is_active) else none
  | none => none

/-- Embeds `TenantMiddleware._extract_subdomain`: first label of the host when it has
more than two labels and is not a reserved literal. -/
def extract_subdomain (host : String) : Option String :=
  let parts := split_char '.' host
  if parts.length > 2 ∧ parts.getD 0 "" ∉ ["www", "api"] then some (parts.getD 0 "")
  else none

/-- Embeds `TenantMiddleware._get_tenant_from_subdomain`. -/
def get_tenant_from_subdomain (tenants : List Tenant) (req : Request) : Option Tenant :=
  match extract_subdomain ((split_char ':' req.host).getD 0 "") with
  | some sub =>
    if sub ≠ "" then tenants.find? (fun t => t.subdomain == sub && t.is_active) else none
  | none => none

/-- Embeds `TenantMiddleware._extract_tenant_from_request`: the `or`-chain
jwt → header → subdomain. -/
def extract_tenant_from_request (decodeJwt : String → Option JwtPayload)
    (tenants : List Tenant) (req : Request) : Option Tenant :=
  (get_tenant_from_jwt decodeJwt tenants req).orElse fun _ =>
    (get_tenant_from_header tenants req).orElse fun _ =>
      get_tenant_from_subdomain tenants req

/-- Outcome of `TenantMiddleware.process_request`: `skip` = excluded path
(request proceeds with no tenant attached), `reject status error` = a
`JsonResponse` with that HTTP status and error message, `attach t` = tenant
attached to the request context. -/
inductive MwResult where
  | skip
  | reject (status : Nat) (error : String)
  | attach (t : Tenant)
  deriving Repr, DecidableEq

/-- Embeds `TenantMiddleware._tenant_not_found_response`. -/
def tenant_not_found_response : MwResult := .reject 400 "Tenant not found or invalid"

/-- Embeds `TenantMiddleware._tenant_inactive_response`. -/
def tenant_inactive_response : MwResult := .reject 403 "Tenant is inactive"

/-- Embeds `TenantMiddleware.process_request`. -/
def process_request (decodeJwt : String → Option JwtPayload)
    (tenants : List Tenant) (req : Request) : MwResult :=
  if should_skip_tenant_check req then .skip
  else
    match extract_tenant_from_request decodeJwt tenants req with
    | none => tenant_not_found_response
    | some t => if !t.is_active then tenant_inactive_response else .attach t

/-! ### Helper lemmas: every resolution strategy only returns active tenants -/

theorem find_active_is_active {l : List Tenant} {p : Tenant → Bool} {t : Tenant}
    (h : l.find? (fun x => p x && x.is_active) = some t) : t.is_active = true := by
  have := List.find?_some h
  exact (Bool.and_eq_true _ _ ▸ this).2

theorem get_tenant_from_jwt_active {d : String → Option JwtPayload}
    {tenants : List Tenant} {req : Request} {t : Tenant}
    (h : get_tenant_from_jwt d tenants req = some t) : t.is_active = true := by
  unfold get_tenant_from_jwt at h
  split at h
  · split at h
    · split at h
      · split at h
        · exact find_active_is_active h
        · exact absurd h (by simp)
      · exact absurd h (by simp)
    · exact absurd h (by simp)
  · exact absurd h (by simp)

theorem get_tenant_from_header_active {tenants : List Tenant} {req : Request}
    {t : Tenant} (h : get_tenant_from_header tenants req = some t) :
    t.is_active = true := by
  unfold get_tenant_from_header at h
  split at h
  · split at h
    · exact find_active_is_active h
    · exact absurd h (by simp)
  · exact absurd h (by simp)

theorem get_tenant_from_subdomain_active {tenants : List Tenant} {req : Request}
    {t : Tenant} (h : get_tenant_from_subdomain tenants req = some t) :
    t.is_active = true := by
  unfold get_tenant_from_subdomain at h
  split at h
  · split at h
    · exact find_active_is_active h
    · exact absurd h (by simp)
  · exact absurd h (by simp)

theorem extract_tenant_active {d : String → Option JwtPayload}
    {tenants : List Tenant} {req : Request} {t : Tenant}
    (h : extract_tenant_from_request d tenants req = some t) : t.is_active = true := by
  unfold extract_tenant_from_request at h
  rcases hj : get_tenant_from_jwt d tenants req with _ | tj
  · rw [hj, Option.none_orElse'] at h
    rcases hh : get_tenant_from_header tenants req with _ | th
    · rw [hh, Option.none_orElse'] at h
      exact get_tenant_from_subdomain_active h
    · rw [hh, Option.some_orElse'] at h
      cases h
      exact get_tenant_from_header_active hh
  · rw [hj, Option.some_orElse'] at h
    cases h
    exact get_tenant_from_jwt_active hj

theorem find_active_subdomain_none {tenants : List Tenant} {s : String}
    (h : ∀ u ∈ tenants, u.subdomain = s → u.is_active = false) :
    tenants.find? (fun t => t.subdomain == s && t.is_active) = none := by
  rw [List.find?_eq_none]
  intro x hx
  simp only [Bool.and_eq_true, beq_iff_eq, not_and]
  intro hsub
  simp [h x hx hsub]

theorem get_tenant_from_header_none {tenants : List Tenant} {req : Request} {s : String}
    (hx : req.x_tenant = some s)
    (h : ∀ u ∈ tenants, u.subdomain = s → u.is_active = false) :
    get_tenant_from_header tenants req = none := by
  simp only [get_tenant_from_header, hx]
  split
  · exact find_active_subdomain_none h
  · rfl

/-! ### Concrete scenario: `X-Tenant: tenant1` with tenant1 inactive -/

/-- The tenant of the spec's end-to-end scenario, with `is_active := false`. -/
def tenant1_inactive : Tenant :=
  { id := 1, name := "Tenant One", subdomain := "tenant1", is_active := false }

/-- A non-exempt request carrying `X-Tenant: tenant1` and no bearer token. -/
def req_header_tenant1 : Request :=
  { path := "/api/v1/users/", http_authorization := "", x_tenant := some "tenant1",
    host := "testserver" }

/-- C1 counterexample: a request whose `X-Tenant` header matches the subdomain of
an existing tenant with `is_active = false` is rejected with the
"tenant not found or invalid" response, not the "tenant inactive" one, because
`_get_tenant_from_header` filters on `is_active=True` and therefore resolves
no tenant at all. -/
theorem inactive_tenant_header_not_rejected_as_inactive_cex :
    process_request (fun _ => none) [tenant1_inactive] req_header_tenant1 =
      tenant_not_found_response ∧
    tenant_not_found_response ≠ tenant_inactive_response := by
  constructor
  · decide
  · decide

/-- C1 (amended): the middleware never rejects a request with the
"tenant inactive" response, because every resolution strategy filters to active
tenants; in particular a non-exempt request whose `X-Tenant` header matches the
subdomain of an existing inactive tenant (with no other signal resolving a
tenant) is rejected with the "tenant not found or invalid" response. -/
theorem inactive_tenant_header_rejected_as_not_found :
    (∀ (d : String → Option JwtPayload) (tenants : List Tenant) (req : Request),
      process_request d tenants req ≠ tenant_inactive_response) ∧
    (∀ (d : String → Option JwtPayload) (tenants : List Tenant) (req : Request)
      (s : String) (t : Tenant),
      should_skip_tenant_check req = false →
      get_tenant_from_jwt d tenants req = none →
      req.x_tenant = some s →
      t ∈ tenants → t.subdomain = s → t.is_active = false →
      (∀ u ∈ tenants, u.subdomain = s → u.is_active = false) →
      get_tenant_from_subdomain tenants req = none →
      process_request d tenants req = tenant_not_found_response) := by
  constructor
  · intro d tenants req h
    unfold process_request at h
    split at h
    · exact absurd h (by simp [tenant_inactive_response])
    · split at h
      · exact absurd h (by simp [tenant_not_found_response, tenant_inactive_response])
      · next t heq =>
        rw [extract_tenant_active heq] at h
        exact absurd h (by simp [tenant_inactive_response])
  · intro d tenants req s t hskip hjwt hx _ _ _ hall hsub
    unfold process_request
    rw [hskip]
    have hext : extract_tenant_from_request d tenants req = none := by
      unfold extract_tenant_from_request
      rw [hjwt, Option.none_orElse', get_tenant_from_header_none hx hall,
        Option.none_orElse', hsub]
    rw [hext]
    rfl

/-- C1 witness: the amended theorem applied to the concrete inactive-tenant
scenario. -/
theorem inactive_tenant_header_rejected_as_not_found_witness :
    process_request (fun _ => none) [tenant1_inactive] req_header_tenant1 =
      tenant_not_found_response :=
  inactive_tenant_header_rejected_as_not_found.2 (fun _ => none) [tenant1_inactive]
    req_header_tenant1 "tenant1" tenant1_inactive (by decide) (by decide) rfl
    (List.mem_singleton.mpr rfl) rfl rfl
    (by
      intro u hu _
      rw [List.mem_singleton] at hu
      subst hu
      rfl)
    (by decide)

/-- C2: tenant resolution tries claim-based, then header, then subdomain, in
that order, first match wins; a bearer token the decode primitive rejects is
treated as absence of the claim signal and resolution falls through to the
header and subdomain strategies. -/
theorem tenant_resolution_order_and_fallthrough :
    (∀ (d : String → Option JwtPayload) (tenants : List Tenant) (req : Request)
      (t : Tenant), get_tenant_from_jwt d tenants req = some t →
      extract_tenant_from_request d tenants req = some t) ∧
    (∀ (d : String → Option JwtPayload) (tenants : List Tenant) (req : Request)
      (t : Tenant), get_tenant_from_jwt d tenants req = none →
      get_tenant_from_header tenants req = some t →
      extract_tenant_from_request d tenants req = some t) ∧
    (∀ (d : String → Option JwtPayload) (tenants : List Tenant) (req : Request),
      get_tenant_from_jwt d tenants req = none →
      get_tenant_from_header tenants req = none →
      extract_tenant_from_request d tenants req =
        get_tenant_from_subdomain tenants req) ∧
    (∀ (d : String → Option JwtPayload) (tenants : List Tenant) (req : Request),
      starts_with req.http_authorization "Bearer " = true →
      d ((split_char ' ' req.http_authorization).getD 1 "") = none →
      extract_tenant_from_request d tenants req =
        (get_tenant_from_header tenants req).orElse fun _ =>
          get_tenant_from_subdomain tenants req) := by
  refine ⟨?_, ?_, ?_, ?_⟩
  · intro d tenants req t hj
    unfold extract_tenant_from_request
    rw [hj, Option.some_orElse']
  · intro d tenants req t hj hh
    unfold extract_tenant_from_request
    rw [hj, Option.none_orElse', hh, Option.some_orElse']
  · intro d tenants req hj hh
    unfold extract_tenant_from_request
    rw [hj, Option.none_orElse', hh, Option.none_orElse']
  · intro d tenants req hb hd
    have hj : get_tenant_from_jwt d tenants req = none := by
      unfold get_tenant_from_jwt
      rw [if_pos hb, hd]
    unfold extract_tenant_from_request
    rw [hj, Option.none_orElse']

/-- An active tenant used to exercise the resolution chain. -/
def tenant_one_active : Tenant :=
  { id := 1, name := "Tenant One", subdomain := "tenant1", is_active := true }

/-- A request carrying a bearer token. -/
def req_bearer : Request :=
  { path := "/api/v1/courses/", http_authorization := "Bearer sometoken",
    x_tenant := some "tenant1", host := "testserver" }

/-- C2 witness: with a decode primitive that yields `tenant_id = 1` the claim
strategy wins; with one that rejects the token, resolution falls through to the
header/subdomain chain. -/
theorem tenant_resolution_order_and_fallthrough_witness :
    extract_tenant_from_request (fun _ => some { tenant_id := some 1 })
      [tenant_one_active] req_bearer = some tenant_one_active ∧
    extract_tenant_from_request (fun _ => none) [tenant_one_active] req_bearer =
      (get_tenant_from_header [tenant_one_active] req_bearer).orElse fun _ =>
        get_tenant_from_subdomain [tenant_one_active] req_bearer :=
  ⟨tenant_resolution_order_and_fallthrough.1 _ _ _ _ (by decide),
   tenant_resolution_order_and_fallthrough.2.2.2 _ _ _ (by decide) rfl⟩

/-! ## The credential store and the application services
(modules/users/services.py) -/

/-- The relational store: one row list per table plus the per-table
autoincrement counters of the database. -/
structure Store where
  tenants : List Tenant
  users : List User
  roles : List Role
  user_roles : List UserRole
  next_tenant_id : Nat
  next_user_id : Nat
  next_role_id : Nat
  next_user_role_id : Nat
  deriving Repr, DecidableEq

/-- The empty database; autoincrement ids start at 1. -/
def emptyStore : Store :=
  { tenants := [], users := [], roles := [], user_roles := [],
    next_tenant_id := 1, next_user_id := 1, next_role_id := 1, next_user_role_id := 1 }

/-- The `user_data` dict passed to `UserService.create_user` /
`TenantService.create_tenant_with_admin` (the fields the services read). -/
structure UserData where
  username : String
  email : String
  password : Option String
  first_name : String
  last_name : String
  deriving Repr, DecidableEq

/-- The `tenant_data` dict passed to `TenantService.create_tenant_with_admin`. -/
structure TenantData where
  name : String
  subdomain : String
  deriving Repr, DecidableEq

/-- The database unique constraint `unique_together [["tenant", "username"],
["tenant", "email"]]` of `User.Meta`: true when inserting `ud` under tenant
`tid` would collide with an existing row. -/
def users_conflict (users : List User) (tid : Nat) (ud : UserData) : Bool :=
  users.any fun u =>
    u.tenant == tid && (u.username == ud.username || u.email == ud.email)

/-- The stored hash resulting from `user_data.pop("password", None)` followed by
`if password: user.set_password(password)`: hashed for a truthy password,
otherwise the account keeps no usable password. -/
def initial_password (hashPwd : String → String) : Option String → Option String
  | some p => if p ≠ "" then some (hashPwd p) else none
  | none => none

/-- The `User.objects.create(**user_data)` row for `user_data` with
`user_data["tenant"] = tenant` (model field defaults from models.py). -/
def new_user_row (hashPwd : String → String) (uid tid : Nat) (ud : UserData)
    (is_staff : Bool) : User :=
  { id := uid, tenant := tid, username := ud.username, email := ud.email,
    password := initial_password hashPwd ud.password,
    first_name := ud.first_name, last_name := ud.last_name,
    phone_number := "", bio := "", is_active := true, is_staff := is_staff,
    is_verified := false, timezone := "UTC", language := "en" }

/-- Embeds `UserService.create_user(user_data, tenant, assign_default_role=True)`.
A violated unique constraint fails the atomic transaction, leaving the store
unchanged. When `assign_default_role` is set, the tenant's "student" role is
looked up and granted when it exists (silently skipped otherwise). -/
def create_user (hashPwd : String → String) (s : Store) (user_data : UserData)
    (tenant : Tenant) (assign_default_role : Bool) : Store × Except String User :=
  if users_conflict s.users tenant.id user_data then
    (s, .error "UNIQUE constraint failed: users")
  else
    let user := new_user_row hashPwd s.next_user_id tenant.id user_data false
    let s1 := { s with users := s.users ++ [user], next_user_id := s.next_user_id + 1 }
    if assign_default_role then
      match s1.roles.find? (fun r => r.tenant == tenant.id && r.name == "student") with
      | some student_role =>
        ({ s1 with
            user_roles := s1.user_roles ++
              [{ id := s1.next_user_role_id, user := user.id, role := student_role.id,
                 tenant := tenant.id, assigned_by := none }],
            next_user_role_id := s1.next_user_role_id + 1 }, .ok user)
      | none => (s1, .ok user)
    else (s1, .ok user)

/-- The attribute names of a `User` instance that `hasattr` reports and
`setattr` can change in the embedded model (Django exposes both the `tenant`
object and the `tenant_id` column attribute). -/
def user_attr_names : List String :=
  ["id", "tenant", "tenant_id", "username", "email", "password", "first_name",
   "last_name", "phone_number", "bio", "is_active", "is_staff", "is_verified",
   "timezone", "language"]

/-- A value in an update dict. -/
inductive FieldValue where
  | str (s : String)
  | bool (b : Bool)
  | nat (n : Nat)
  deriving Repr, DecidableEq

/-- Embeds `setattr(user, field, value)` guarded by `hasattr(user, field)`: unknown
attribute names are skipped; a value of the wrong shape for the attribute
leaves the row unchanged (the typed model of Python's dynamic assignment). -/
def set_field (u : User) (field : String) (v : FieldValue) : User :=
  if field = "id" then match v with | .nat n => { u with id := n } | _ => u
  else if field = "tenant" then match v with | .nat n => { u with tenant := n } | _ => u
  else if field = "tenant_id" then match v with | .nat n => { u with tenant := n } | _ => u
  else if field = "password" then match v with | .str x => { u with password := some x } | _ => u
  else if field = "username" then match v with | .str x => { u with username := x } | _ => u
  else if field = "email" then match v with | .str x => { u with email := x } | _ => u
  else if field = "first_name" then match v with | .str x => { u with first_name := x } | _ => u
  else if field = "last_name" then match v with | .str x => { u with last_name := x } | _ => u
  else if field = "phone_number" then match v with | .str x => { u with phone_number := x } | _ => u
  else if field = "bio" then match v with | .str x => { u with bio := x } | _ => u
  else if field = "is_active" then match v with | .bool b => { u with is_active := b } | _ => u
  else if field = "is_staff" then match v with | .bool b => { u with is_staff := b } | _ => u
  else if field = "is_verified" then match v with | .bool b => { u with is_verified := b } | _ => u
  else if field = "timezone" then match v with | .str x => { u with timezone := x } | _ => u
  else if field = "language" then match v with | .str x => { u with language := x } | _ => u
  else u

/-- Embeds `UserService.update_user(user, update_data)`: pop `tenant`, `tenant_id`
and `password` from the dict, then apply the remaining entries with
`setattr` where `hasattr` holds. The dict is modelled as an entry list in
iteration order. -/
def update_user (user : User) (update_data : List (String × FieldValue)) : User :=
  (update_data.filter fun kv =>
      kv.1 != "tenant" && kv.1 != "tenant_id" && kv.1 != "password").foldl
    (fun u kv => set_field u kv.1 kv.2) user

/-- Embeds `user.check_password(raw)`, parametrised over the external verify
primitive; an account without a usable stored hash verifies nothing. -/
def check_password (verifyPwd : String → String → Bool) (user : User)
    (raw : String) : Bool :=
  match user.password with
  | some stored => verifyPwd raw stored
  | none => false

/-- Embeds `UserService.change_password(user, old_password, new_password)`: the pair
is (the user row after the call, the outcome — `ok true` mirrors the `return
True`, `error` mirrors the raised `ValueError`). -/
def change_password (verifyPwd : String → String → Bool)
    (hashPwd : String → String) (user : User) (old_password new_password : String) :
    User × Except String Bool :=
  if !check_password verifyPwd user old_password then
    (user, .error "Old password is incorrect")
  else
    ({ user with password := some (hashPwd new_password) }, .ok true)

/-- The `(user, role, tenant)` match used by `assign_role`'s existence check
and by the `unique_together [["user", "role", "tenant"]]` constraint. -/
def ur_matches (uid rid tid : Nat) (ur : UserRole) : Bool :=
  ur.user == uid && ur.role == rid && ur.tenant == tid

/-- Embeds `RoleService.assign_role(user, role, tenant, assigned_by=None)`: the three
tenant-consistency checks, then the idempotent existence check, then the
insert. An error leaves the store unchanged (`transaction.atomic`). -/
def assign_role (s : Store) (user : User) (role : Role) (tenant : Tenant)
    (assigned_by : Option User) : Store × Except String UserRole :=
  if user.tenant ≠ tenant.id then
    (s, .error "User must belong to the same tenant")
  else if role.tenant ≠ tenant.id then
    (s, .error "Role must belong to the same tenant")
  else if assigned_by.any (fun a => a.tenant != tenant.id) then
    (s, .error "Assigner must belong to the same tenant")
  else
    match s.user_roles.find? (ur_matches user.id role.id tenant.id) with
    | some existing => (s, .ok existing)
    | none =>
      let ur : UserRole :=
        { id := s.next_user_role_id, user := user.id, role := role.id,
          tenant := tenant.id, assigned_by := assigned_by.map (fun a => a.id) }
      ({ s with
          user_roles := s.user_roles ++ [ur],
          next_user_role_id := s.next_user_role_id + 1 }, .ok ur)

/-- Embeds `Role.objects.get_or_create(name=..., tenant=..., defaults=...)`: returns
the found row untouched with `created = false`, or inserts a fresh row built
from the defaults with `created = true`. -/
def role_get_or_create (s : Store) (name : String) (tid : Nat)
    (description : String) (permissions : List String) : Store × Role × Bool :=
  match s.roles.find? (fun r => r.name == name && r.tenant == tid) with
  | some r => (s, r, false)
  | none =>
    let r : Role :=
      { id := s.next_role_id, tenant := tid, name := name,
        description := description, permissions := permissions,
        is_system_role := true }
    ({ s with
        roles := s.roles ++ [r],
        next_role_id := s.next_role_id + 1 }, r, true)

/-- The fixed admin permission set of §4.3 (services.py and the seeding
command agree on it). -/
def adminPermissions : List String :=
  ["manage_users", "manage_roles", "manage_courses", "manage_assessments",
   "view_analytics", "manage_settings"]

/-- The fixed instructor permission set of §4.3. -/
def instructorPermissions : List String :=
  ["create_courses", "manage_own_courses", "create_assessments",
   "grade_submissions", "view_student_progress", "issue_certificates"]

/-- The fixed student permission set of §4.3. -/
def studentPermissions : List String :=
  ["enroll_courses", "view_courses", "submit_assessments", "view_own_progress",
   "view_certificates"]

/-- The `created_roles` dict returned by
`TenantService._create_default_roles`. -/
structure SeededRoles where
  store : Store
  admin : Role
  instructor : Role
  student : Role
  deriving Repr, DecidableEq

/-- Embeds `TenantService._create_default_roles(tenant)`: `get_or_create` for each of
admin, instructor, student, in dict insertion order. -/
def create_default_roles (s : Store) (tenant : Tenant) : SeededRoles :=
  let a := role_get_or_create s "admin" tenant.id
    "Full access to tenant resources" adminPermissions
  let b := role_get_or_create a.1 "instructor" tenant.id
    "Create and manage courses" instructorPermissions
  let c := role_get_or_create b.1 "student" tenant.id
    "Enroll in courses" studentPermissions
  { store := c.1, admin := a.2.1, instructor := b.2.1, student := c.2.1 }

/-- Embeds `TenantService.create_tenant_with_admin(tenant_data, admin_user_data)`:
create the tenant (subject to the unique subdomain constraint), seed the three
default roles, create the admin user with `is_staff = True` (subject to the
per-tenant user unique constraints), grant the admin role. Any constraint
violation rolls the whole atomic transaction back to the original store. -/
def create_tenant_with_admin (hashPwd : String → String) (s : Store)
    (tenant_data : TenantData) (admin_user_data : UserData) :
    Store × Except String (Tenant × User) :=
  if s.tenants.any (fun t => t.subdomain == tenant_data.subdomain) then
    (s, .error "UNIQUE constraint failed: tenants.subdomain")
  else
    let tenant : Tenant :=
      { id := s.next_tenant_id, name := tenant_data.name,
        subdomain := tenant_data.subdomain, is_active := true }
    let s1 := { s with
                tenants := s.tenants ++ [tenant],
                next_tenant_id := s.next_tenant_id + 1 }
    let seeded := create_default_roles s1 tenant
    let s2 := seeded.store
    if users_conflict s2.users tenant.id admin_user_data then
      (s, .error "UNIQUE constraint failed: users")
    else
      let admin_user := new_user_row hashPwd s2.next_user_id tenant.id admin_user_data true
      let s3 := { s2 with
                  users := s2.users ++ [admin_user],
                  next_user_id := s2.next_user_id + 1 }
      let s4 := { s3 with
        user_roles := s3.user_roles ++
          [{ id := s3.next_user_role_id, user := admin_user.id,
             role := seeded.admin.id, tenant := tenant.id, assigned_by := none }],
        next_user_role_id := s3.next_user_role_id + 1 }
      (s4, .ok (tenant, admin_user))

/-- Embeds `Command._seed_roles_for_tenant(tenant)` from the `seed_default_roles`
management command: `get_or_create` for each default role, counting how many
were created (a role that already exists is reported as existing and not
counted). -/
def seed_roles_for_tenant (s : Store) (tenant : Tenant) : Store × Nat :=
  let a := role_get_or_create s "admin" tenant.id
    "Full access to tenant resources and user management" adminPermissions
  let b := role_get_or_create a.1 "instructor" tenant.id
    "Create and manage courses, assessments, and grade students" instructorPermissions
  let c := role_get_or_create b.1 "student" tenant.id
    "Enroll in courses and submit assessments" studentPermissions
  (c.1, (if a.2.2 then 1 else 0) + (if b.2.2 then 1 else 0) + (if c.2.2 then 1 else 0))

/-! ## Claims about the services -/

/-- C3: `assign_role` fails with a tenant-consistency error naming the
mismatched party (user, role, or assigner) and leaves the store unchanged,
whenever the user's, the role's, or a supplied assigner's tenant differs from
the target tenant. -/
theorem assign_role_tenant_mismatch_fails :
    (∀ (s : Store) (user : User) (role : Role) (tenant : Tenant) (ab : Option User),
      user.tenant ≠ tenant.id →
      assign_role s user role tenant ab =
        (s, .error "User must belong to the same tenant")) ∧
    (∀ (s : Store) (user : User) (role : Role) (tenant : Tenant) (ab : Option User),
      user.tenant = tenant.id → role.tenant ≠ tenant.id →
      assign_role s user role tenant ab =
        (s, .error "Role must belong to the same tenant")) ∧
    (∀ (s : Store) (user : User) (role : Role) (tenant : Tenant) (a : User),
      user.tenant = tenant.id → role.tenant = tenant.id → a.tenant ≠ tenant.id →
      assign_role s user role tenant (some a) =
        (s, .error "Assigner must belong to the same tenant")) := by
  refine ⟨?_, ?_, ?_⟩
  · intro s user role tenant ab h
    unfold assign_role
    rw [if_pos h]
  · intro s user role tenant ab h1 h2
    unfold assign_role
    rw [if_neg (not_not_intro h1), if_pos h2]
  · intro s user role tenant a h1 h2 h3
    unfold assign_role
    rw [if_neg (not_not_intro h1), if_neg (not_not_intro h2), if_pos]
    simp [Option.any, bne_iff_ne, h3]

/-- A user row belonging to tenant 2. -/
def user_in_tenant2 : User :=
  new_user_row (fun p => p ++ "#") 7 2
    { username := "bob", email := "bob@other.com", password := none,
      first_name := "", last_name := "" } false

/-- A role row belonging to tenant 1. -/
def role_in_tenant1 : Role :=
  { id := 3, tenant := 1, name := "student", description := "",
    permissions := studentPermissions, is_system_role := true }

/-- C3 witness: assigning a tenant-1 role to a tenant-2 user under tenant 1
fails with the user-mismatch error and an unchanged store. -/
theorem assign_role_tenant_mismatch_fails_witness :
    assign_role emptyStore user_in_tenant2 role_in_tenant1 tenant_one_active none =
      (emptyStore, .error "User must belong to the same tenant") :=
  assign_role_tenant_mismatch_fails.1 emptyStore user_in_tenant2 role_in_tenant1
    tenant_one_active none (by decide)

/-- C8: `change_password` fails with the incorrect-password error exactly when
the old password does not verify against the stored hash; on failure the row
(and so its stored hash) is unchanged, and on success the stored hash becomes
the hash of the new password. -/
theorem change_password_correct :
    ∀ (verifyPwd : String → String → Bool) (hashPwd : String → String)
      (user : User) (old_password new_password : String),
      ((change_password verifyPwd hashPwd user old_password new_password).2 =
          .error "Old password is incorrect" ↔
        check_password verifyPwd user old_password = false) ∧
      (check_password verifyPwd user old_password = false →
        (change_password verifyPwd hashPwd user old_password new_password).1 = user) ∧
      (check_password verifyPwd user old_password = true →
        (change_password verifyPwd hashPwd user old_password new_password).1 =
          { user with password := some (hashPwd new_password) }) := by
  intro v h u o n
  unfold change_password
  cases hc : check_password v u o <;> simp [hc]

/-- The admin user data of the spec's end-to-end registration scenario. -/
def admin_data : UserData :=
  { username := "admin", email := "admin@testco.com",
    password := some "adminpass123", first_name := "", last_name := "" }

/-- A stored user row: `admin_data` hashed with the sample primitive. -/
def sample_user : User :=
  new_user_row (fun p => p ++ "#") 1 1 admin_data false

/-- C8 witness: `change_password(user, "wrong", "new")` with a concrete verify
primitive fails and leaves the row unchanged. -/
theorem change_password_correct_witness :
    (change_password (fun raw stored => (raw ++ "#") == stored) (fun p => p ++ "#")
        sample_user "wrong" "newpass").1 = sample_user :=
  (change_password_correct (fun raw stored => (raw ++ "#") == stored)
    (fun p => p ++ "#") sample_user "wrong" "newpass").2.1 (by decide)

set_option maxHeartbeats 1000000 in
theorem set_field_frame (u : User) (k : String) (v : FieldValue)
    (h1 : k ≠ "tenant") (h2 : k ≠ "tenant_id") (h3 : k ≠ "password") :
    (set_field u k v).tenant = u.tenant ∧ (set_field u k v).password = u.password := by
  unfold set_field
  by_cases e1 : k = "id"
  · rw [if_pos e1]
    cases v <;> exact ⟨rfl, rfl⟩
  rw [if_neg e1, if_neg h1, if_neg h2, if_neg h3]
  by_cases e5 : k = "username"
  · rw [if_pos e5]
    cases v <;> exact ⟨rfl, rfl⟩
  rw [if_neg e5]
  by_cases e6 : k = "email"
  · rw [if_pos e6]
    cases v <;> exact ⟨rfl, rfl⟩
  rw [if_neg e6]
  by_cases e7 : k = "first_name"
  · rw [if_pos e7]
    cases v <;> exact ⟨rfl, rfl⟩
  rw [if_neg e7]
  by_cases e8 : k = "last_name"
  · rw [if_pos e8]
    cases v <;> exact ⟨rfl, rfl⟩
  rw [if_neg e8]
  by_cases e9 : k = "phone_number"
  · rw [if_pos e9]
    cases v <;> exact ⟨rfl, rfl⟩
  rw [if_neg e9]
  by_cases e10 : k = "bio"
  · rw [if_pos e10]
    cases v <;> exact ⟨rfl, rfl⟩
  rw [if_neg e10]
  by_cases e11 : k = "is_active"
  · rw [if_pos e11]
    cases v <;> exact ⟨rfl, rfl⟩
  rw [if_neg e11]
  by_cases e12 : k = "is_staff"
  · rw [if_pos e12]
    cases v <;> exact ⟨rfl, rfl⟩
  rw [if_neg e12]
  by_cases e13 : k = "is_verified"
  · rw [if_pos e13]
    cases v <;> exact ⟨rfl, rfl⟩
  rw [if_neg e13]
  by_cases e14 : k = "timezone"
  · rw [if_pos e14]
    cases v <;> exact ⟨rfl, rfl⟩
  rw [if_neg e14]
  by_cases e15 : k = "language"
  · rw [if_pos e15]
    cases v <;> exact ⟨rfl, rfl⟩
  rw [if_neg e15]
  exact ⟨rfl, rfl⟩

theorem foldl_set_field_frame :
    ∀ (l : List (String × FieldValue)) (u : User),
      (∀ kv ∈ l, kv.1 ≠ "tenant" ∧ kv.1 ≠ "tenant_id" ∧ kv.1 ≠ "password") →
      (l.foldl (fun a kv => set_field a kv.1 kv.2) u).tenant = u.tenant ∧
      (l.foldl (fun a kv => set_field a kv.1 kv.2) u).password = u.password := by
  intro l
  induction l with
  | nil => exact fun u _ => ⟨rfl, rfl⟩
  | cons kv tl ih =>
    intro u h
    have hk := h kv (List.mem_cons_self kv tl)
    have hf := set_field_frame u kv.1 kv.2 hk.1 hk.2.1 hk.2.2
    have htl := ih (set_field u kv.1 kv.2) fun x hx => h x (List.mem_cons_of_mem kv hx)
    simp only [List.foldl_cons]
    exact ⟨htl.1.trans hf.1, htl.2.trans hf.2⟩

/-- C9: `update_user` never changes the owning tenant or the stored password
hash — the `tenant`, `tenant_id` and `password` keys are stripped before the
patch is applied — while every other entry of the patch is still applied via
the `setattr` step, in order. -/
theorem update_user_strips_tenant_and_password :
    (∀ (user : User) (update_data : List (String × FieldValue)),
      (update_user user update_data).tenant = user.tenant ∧
      (update_user user update_data).password = user.password) ∧
    (∀ (user : User) (update_data : List (String × FieldValue)) (k : String)
      (v : FieldValue), k ≠ "tenant" → k ≠ "tenant_id" → k ≠ "password" →
      update_user user (update_data ++ [(k, v)]) =
        set_field (update_user user update_data) k v) := by
  constructor
  · intro user data
    apply foldl_set_field_frame
    intro kv hkv
    have hp := (List.mem_filter.mp hkv).2
    simp only [Bool.and_eq_true, bne_iff_ne, ne_eq] at hp
    exact ⟨hp.1.1, hp.1.2, hp.2⟩
  · intro user data k v h1 h2 h3
    unfold update_user
    rw [List.filter_append]
    have hone : List.filter
        (fun kv => kv.1 != "tenant" && kv.1 != "tenant_id" && kv.1 != "password")
        [(k, v)] = [(k, v)] := by
      simp [h1, h2, h3]
    rw [hone, List.foldl_append]
    rfl

/-- C9 witness: a patch that tries to move the user to tenant 9 and overwrite
the password, while also renaming the user, changes the username but neither
the tenant nor the stored hash. -/
theorem update_user_strips_tenant_and_password_witness :
    update_user sample_user
        [("tenant", .nat 9), ("password", .str "plaintext"), ("username", .str "root")] =
      set_field (update_user sample_user [("tenant", .nat 9), ("password", .str "plaintext")])
        "username" (.str "root") ∧
    (update_user sample_user
        [("tenant", .nat 9), ("password", .str "plaintext"), ("username", .str "root")]).tenant =
      sample_user.tenant :=
  ⟨update_user_strips_tenant_and_password.2 sample_user
      [("tenant", .nat 9), ("password", .str "plaintext")] "username" (.str "root")
      (by decide) (by decide) (by decide),
   (update_user_strips_tenant_and_password.1 sample_user
      [("tenant", .nat 9), ("password", .str "plaintext"), ("username", .str "root")]).1⟩

theorem create_user_ok (hP : String → String) (s : Store) (ud : UserData)
    (tenant : Tenant) (adr : Bool)
    (hc : users_conflict s.users tenant.id ud = false) :
    (create_user hP s ud tenant adr).2 =
      .ok (new_user_row hP s.next_user_id tenant.id ud false) ∧
    (create_user hP s ud tenant adr).1.users =
      s.users ++ [new_user_row hP s.next_user_id tenant.id ud false] ∧
    (create_user hP s ud tenant adr).1.tenants = s.tenants ∧
    (create_user hP s ud tenant adr).1.next_tenant_id = s.next_tenant_id := by
  unfold create_user
  rw [hc]
  cases adr
  · simp
  · simp only [Bool.false_eq_true, if_false, if_true]
    split <;> simp

theorem create_user_error (hP : String → String) (s : Store) (ud : UserData)
    (tenant : Tenant) (adr : Bool)
    (hc : users_conflict s.users tenant.id ud = true) :
    create_user hP s ud tenant adr = (s, .error "UNIQUE constraint failed: users") := by
  unfold create_user
  rw [hc]
  rfl

/-- C10: `create_user` succeeds for user data with a missing or empty password
(subject only to the per-tenant uniqueness constraints): the result does not
depend on the password-hashing primitive at all, and the created row carries
no usable password. -/
theorem create_user_without_password_succeeds :
    ∀ (h1 h2 : String → String) (s : Store) (user_data : UserData)
      (tenant : Tenant) (adr : Bool),
      (user_data.password = none ∨ user_data.password = some "") →
      create_user h1 s user_data tenant adr = create_user h2 s user_data tenant adr ∧
      (users_conflict s.users tenant.id user_data = false →
        ∃ u, (create_user h1 s user_data tenant adr).2 = .ok u ∧ u.password = none) := by
  intro h1 h2 s ud tenant adr hp
  have hip : ∀ h : String → String, initial_password h ud.password = none := by
    intro h
    rcases hp with hp | hp <;> rw [hp] <;> simp [initial_password]
  have hrow : new_user_row h1 s.next_user_id tenant.id ud false =
      new_user_row h2 s.next_user_id tenant.id ud false := by
    unfold new_user_row
    rw [hip h1, hip h2]
  constructor
  · unfold create_user
    rw [hrow]
  · intro hc
    exact ⟨new_user_row h1 s.next_user_id tenant.id ud false,
      (create_user_ok h1 s ud tenant adr hc).1, hip h1⟩

/-- C10 witness: creating a user with `password = None` in the empty store
succeeds with no stored hash, independently of the hashing primitive. -/
theorem create_user_without_password_succeeds_witness :
    ∃ u, (create_user (fun p => p ++ "#") emptyStore
        { username := "nopass", email := "nopass@x.com", password := none,
          first_name := "", last_name := "" } tenant_one_active true).2 = .ok u ∧
      u.password = none :=
  (create_user_without_password_succeeds (fun p => p ++ "#") (fun _ => "")
      emptyStore
      { username := "nopass", email := "nopass@x.com", password := none,
        first_name := "", last_name := "" } tenant_one_active true
      (Or.inl rfl)).2 rfl

theorem assign_role_no_mismatch (s : Store) (user : User) (role : Role)
    (tenant : Tenant) (h1 : user.tenant = tenant.id) (h2 : role.tenant = tenant.id) :
    assign_role s user role tenant none =
      (match s.user_roles.find? (ur_matches user.id role.id tenant.id) with
       | some existing => (s, Except.ok existing)
       | none =>
         ({ s with
             user_roles := s.user_roles ++
               [{ id := s.next_user_role_id, user := user.id, role := role.id,
                  tenant := tenant.id, assigned_by := none }],
             next_user_role_id := s.next_user_role_id + 1 },
          Except.ok
            { id := s.next_user_role_id, user := user.id, role := role.id,
              tenant := tenant.id, assigned_by := none })) := by
  unfold assign_role
  rw [if_neg (not_not_intro h1), if_neg (not_not_intro h2)]
  rfl

/-- C4: for tenant-consistent inputs over a store that satisfies the
`(user, role, tenant)` uniqueness constraint, calling `assign_role` twice
returns the same assignment row both times and leaves exactly one matching
row in the store. -/
theorem assign_role_idempotent :
    ∀ (s : Store) (user : User) (role : Role) (tenant : Tenant),
      user.tenant = tenant.id → role.tenant = tenant.id →
      (s.user_roles.filter (ur_matches user.id role.id tenant.id)).length ≤ 1 →
      ∃ ur,
        (assign_role s user role tenant none).2 = .ok ur ∧
        (assign_role (assign_role s user role tenant none).1 user role tenant
            none).2 = .ok ur ∧
        ((assign_role (assign_role s user role tenant none).1 user role tenant
            none).1.user_roles.filter
          (ur_matches user.id role.id tenant.id)).length = 1 := by
  intro s user role tenant h1 h2 hlen
  rcases hf : s.user_roles.find? (ur_matches user.id role.id tenant.id) with _ | e
  · -- no existing row: the first call inserts, the second call finds the insert
    have ha1 : assign_role s user role tenant none =
        ({ s with
            user_roles := s.user_roles ++
              [{ id := s.next_user_role_id, user := user.id, role := role.id,
                 tenant := tenant.id, assigned_by := none }],
            next_user_role_id := s.next_user_role_id + 1 },
         Except.ok
           { id := s.next_user_role_id, user := user.id, role := role.id,
             tenant := tenant.id, assigned_by := none }) := by
      rw [assign_role_no_mismatch s user role tenant h1 h2, hf]
    have hmatch : ur_matches user.id role.id tenant.id
        { id := s.next_user_role_id, user := user.id, role := role.id,
          tenant := tenant.id, assigned_by := none } = true := by
      simp [ur_matches]
    have hfilter : s.user_roles.filter (ur_matches user.id role.id tenant.id) = [] :=
      List.filter_eq_nil_iff.mpr (List.find?_eq_none.mp hf)
    have hf2 : (s.user_roles ++
        [({ id := s.next_user_role_id, user := user.id, role := role.id,
            tenant := tenant.id, assigned_by := none } : UserRole)]).find?
          (ur_matches user.id role.id tenant.id) =
        some ({ id := s.next_user_role_id, user := user.id, role := role.id,
                tenant := tenant.id, assigned_by := none } : UserRole) := by
      rw [List.find?_append, hf, Option.none_or]
      exact List.find?_cons_of_pos _ hmatch
    refine ⟨_, by rw [ha1], ?_, ?_⟩
    · rw [ha1]
      rw [assign_role_no_mismatch _ user role tenant h1 h2]
      simp only []
      rw [hf2]
    · rw [ha1]
      rw [assign_role_no_mismatch _ user role tenant h1 h2]
      simp only []
      rw [hf2]
      simp only [List.filter_append, hfilter, List.nil_append]
      simp [hmatch]
  · -- existing row: both calls return it and the store never changes
    have ha1 : assign_role s user role tenant none = (s, .ok e) := by
      rw [assign_role_no_mismatch s user role tenant h1 h2, hf]
    have hmem : e ∈ s.user_roles.filter (ur_matches user.id role.id tenant.id) :=
      List.mem_filter.mpr ⟨List.mem_of_find?_eq_some hf, List.find?_some hf⟩
    have hpos : 0 < (s.user_roles.filter (ur_matches user.id role.id tenant.id)).length :=
      List.length_pos.mpr (List.ne_nil_of_mem hmem)
    refine ⟨e, by rw [ha1], ?_, ?_⟩
    · simp only [ha1]
    · simp only [ha1]
      omega

/-- A user row in tenant 1, matching `role_in_tenant1`. -/
def user_in_tenant1 : User :=
  new_user_row (fun p => p ++ "#") 5 1
    { username := "alice", email := "alice@testco.com", password := none,
      first_name := "", last_name := "" } false

/-- C4 witness: assigning the student role twice in the empty store yields the
same row twice and exactly one matching row. -/
theorem assign_role_idempotent_witness :
    ∃ ur,
      (assign_role emptyStore user_in_tenant1 role_in_tenant1 tenant_one_active
          none).2 = .ok ur ∧
      (assign_role
          (assign_role emptyStore user_in_tenant1 role_in_tenant1 tenant_one_active
            none).1 user_in_tenant1 role_in_tenant1 tenant_one_active none).2 = .ok ur ∧
      ((assign_role
          (assign_role emptyStore user_in_tenant1 role_in_tenant1 tenant_one_active
            none).1 user_in_tenant1 role_in_tenant1 tenant_one_active
            none).1.user_roles.filter
        (ur_matches user_in_tenant1.id role_in_tenant1.id tenant_one_active.id)).length = 1 :=
  assign_role_idempotent emptyStore user_in_tenant1 role_in_tenant1 tenant_one_active
    rfl rfl (by decide)

theorem role_get_or_create_found {s : Store} {n : String} {tid : Nat} {r : Role}
    (hf : s.roles.find? (fun x => x.name == n && x.tenant == tid) = some r) :
    ∀ (d : String) (p : List String), role_get_or_create s n tid d p = (s, r, false) := by
  intro d p
  unfold role_get_or_create
  rw [hf]

theorem role_get_or_create_none {s : Store} {n : String} {tid : Nat}
    (hf : s.roles.find? (fun x => x.name == n && x.tenant == tid) = none) :
    ∀ (d : String) (p : List String), role_get_or_create s n tid d p =
      ({ s with
          roles := s.roles ++
            [({ id := s.next_role_id, tenant := tid, name := n, description := d,
                permissions := p, is_system_role := true } : Role)],
          next_role_id := s.next_role_id + 1 },
       ({ id := s.next_role_id, tenant := tid, name := n, description := d,
          permissions := p, is_system_role := true } : Role), true) := by
  intro d p
  unfold role_get_or_create
  rw [hf]

theorem role_get_or_create_exists (s : Store) (n : String) (tid : Nat)
    (d : String) (p : List String) :
    ∃ r ∈ (role_get_or_create s n tid d p).1.roles,
      (r.name == n && r.tenant == tid) = true := by
  rcases hf : s.roles.find? (fun x => x.name == n && x.tenant == tid) with _ | r
  · rw [role_get_or_create_none hf d p]
    refine ⟨_, List.mem_append_right _ (List.mem_singleton.mpr rfl), ?_⟩
    simp
  · rw [role_get_or_create_found hf d p]
    exact ⟨r, List.mem_of_find?_eq_some hf, by simpa using List.find?_some hf⟩

theorem role_get_or_create_prefix (s : Store) (n : String) (tid : Nat)
    (d : String) (p : List String) :
    ∃ tail, (role_get_or_create s n tid d p).1.roles = s.roles ++ tail := by
  rcases hf : s.roles.find? (fun x => x.name == n && x.tenant == tid) with _ | r
  · rw [role_get_or_create_none hf d p]
    exact ⟨_, rfl⟩
  · rw [role_get_or_create_found hf d p]
    exact ⟨[], (List.append_nil _).symm⟩

theorem find?_of_exists {α : Type} {l : List α} {p : α → Bool}
    (h : ∃ x ∈ l, p x = true) : ∃ r, l.find? p = some r :=
  Option.isSome_iff_exists.mp (List.find?_isSome.mpr h)

theorem seed_all_present (s : Store) (t : Tenant)
    (ha : ∃ r ∈ s.roles, (r.name == "admin" && r.tenant == t.id) = true)
    (hi : ∃ r ∈ s.roles, (r.name == "instructor" && r.tenant == t.id) = true)
    (hs : ∃ r ∈ s.roles, (r.name == "student" && r.tenant == t.id) = true) :
    seed_roles_for_tenant s t = (s, 0) := by
  obtain ⟨ra, hra⟩ := find?_of_exists ha
  obtain ⟨ri, hri⟩ := find?_of_exists hi
  obtain ⟨rs, hrs⟩ := find?_of_exists hs
  simp only [seed_roles_for_tenant, role_get_or_create_found hra,
    role_get_or_create_found hri, role_get_or_create_found hrs]
  simp

theorem seed_roles_contains (s : Store) (t : Tenant) :
    (∃ r ∈ (seed_roles_for_tenant s t).1.roles,
      (r.name == "admin" && r.tenant == t.id) = true) ∧
    (∃ r ∈ (seed_roles_for_tenant s t).1.roles,
      (r.name == "instructor" && r.tenant == t.id) = true) ∧
    (∃ r ∈ (seed_roles_for_tenant s t).1.roles,
      (r.name == "student" && r.tenant == t.id) = true) := by
  have hchain : (seed_roles_for_tenant s t).1 =
      (role_get_or_create
        (role_get_or_create
          (role_get_or_create s "admin" t.id
            "Full access to tenant resources and user management"
            adminPermissions).1 "instructor" t.id
          "Create and manage courses, assessments, and grade students"
          instructorPermissions).1 "student" t.id
        "Enroll in courses and submit assessments" studentPermissions).1 := rfl
  obtain ⟨t3, ht3⟩ := role_get_or_create_prefix
    (role_get_or_create
      (role_get_or_create s "admin" t.id
        "Full access to tenant resources and user management" adminPermissions).1
      "instructor" t.id
      "Create and manage courses, assessments, and grade students"
      instructorPermissions).1 "student" t.id
    "Enroll in courses and submit assessments" studentPermissions
  obtain ⟨t2, ht2⟩ := role_get_or_create_prefix
    (role_get_or_create s "admin" t.id
      "Full access to tenant resources and user management" adminPermissions).1
    "instructor" t.id
    "Create and manage courses, assessments, and grade students"
    instructorPermissions
  refine ⟨?_, ?_, ?_⟩
  · obtain ⟨r, hr, hp⟩ := role_get_or_create_exists s "admin" t.id
      "Full access to tenant resources and user management" adminPermissions
    refine ⟨r, ?_, hp⟩
    rw [hchain, ht3, ht2]
    exact List.mem_append_left _ (List.mem_append_left _ hr)
  · obtain ⟨r, hr, hp⟩ := role_get_or_create_exists
      (role_get_or_create s "admin" t.id
        "Full access to tenant resources and user management" adminPermissions).1
      "instructor" t.id
      "Create and manage courses, assessments, and grade students"
      instructorPermissions
    refine ⟨r, ?_, hp⟩
    rw [hchain, ht3]
    exact List.mem_append_left _ hr
  · obtain ⟨r, hr, hp⟩ := role_get_or_create_exists
      (role_get_or_create
        (role_get_or_create s "admin" t.id
          "Full access to tenant resources and user management" adminPermissions).1
        "instructor" t.id
        "Create and manage courses, assessments, and grade students"
        instructorPermissions).1 "student" t.id
      "Enroll in courses and submit assessments" studentPermissions
    exact ⟨r, hchain ▸ hr, hp⟩

theorem seed_roles_twice_noop (s : Store) (t : Tenant) :
    seed_roles_for_tenant (seed_roles_for_tenant s t).1 t =
      ((seed_roles_for_tenant s t).1, 0) := by
  obtain ⟨ha, hi, hs⟩ := seed_roles_contains s t
  exact seed_all_present _ t ha hi hs

theorem seed_roles_fresh (s : Store) (t : Tenant)
    (h : ∀ r ∈ s.roles, r.tenant ≠ t.id) :
    ((seed_roles_for_tenant s t).1.roles.filter (fun r => r.tenant == t.id)).length = 3 := by
  have hfa : s.roles.find? (fun x => x.name == "admin" && x.tenant == t.id) = none :=
    List.find?_eq_none.mpr fun x hx => by simp [h x hx]
  have e1 := role_get_or_create_none hfa
    "Full access to tenant resources and user management" adminPermissions
  have hfb : ((role_get_or_create s "admin" t.id
      "Full access to tenant resources and user management"
      adminPermissions).1.roles).find?
        (fun x => x.name == "instructor" && x.tenant == t.id) = none := by
    rw [e1]
    simp only []
    rw [List.find?_append, List.find?_eq_none.mpr fun x hx => by simp [h x hx]]
    simp
  have e2 := role_get_or_create_none hfb
    "Create and manage courses, assessments, and grade students" instructorPermissions
  have hfc : ((role_get_or_create
      (role_get_or_create s "admin" t.id
        "Full access to tenant resources and user management" adminPermissions).1
      "instructor" t.id
      "Create and manage courses, assessments, and grade students"
      instructorPermissions).1.roles).find?
        (fun x => x.name == "student" && x.tenant == t.id) = none := by
    rw [e2]
    simp only []
    rw [e1]
    simp only []
    rw [List.find?_append, List.find?_append,
      List.find?_eq_none.mpr fun x hx => by simp [h x hx]]
    simp
  have e3 := role_get_or_create_none hfc
    "Enroll in courses and submit assessments" studentPermissions
  have hchain : (seed_roles_for_tenant s t).1 =
      (role_get_or_create
        (role_get_or_create
          (role_get_or_create s "admin" t.id
            "Full access to tenant resources and user management"
            adminPermissions).1 "instructor" t.id
          "Create and manage courses, assessments, and grade students"
          instructorPermissions).1 "student" t.id
        "Enroll in courses and submit assessments" studentPermissions).1 := rfl
  rw [hchain, e3]
  simp only []
  rw [e2]
  simp only []
  rw [e1]
  simp only []
  rw [List.filter_append, List.filter_append, List.filter_append,
    List.filter_eq_nil_iff.mpr fun x hx => by simp [h x hx]]
  simp

/-- C7: default-role seeding is idempotent per tenant — a second run changes
nothing and reports zero created; two runs over a tenant with no prior roles
leave exactly 3 roles; existing role rows (with any custom permission edits)
are never modified, only new rows are appended; when all three names already
exist the run creates nothing and leaves the store untouched. -/
theorem seed_default_roles_idempotent :
    (∀ (s : Store) (t : Tenant),
      seed_roles_for_tenant (seed_roles_for_tenant s t).1 t =
        ((seed_roles_for_tenant s t).1, 0)) ∧
    (∀ (s : Store) (t : Tenant), (∀ r ∈ s.roles, r.tenant ≠ t.id) →
      ((seed_roles_for_tenant (seed_roles_for_tenant s t).1 t).1.roles.filter
        (fun r => r.tenant == t.id)).length = 3) ∧
    (∀ (s : Store) (t : Tenant), ∃ tail,
      (seed_roles_for_tenant s t).1.roles = s.roles ++ tail) ∧
    (∀ (s : Store) (t : Tenant),
      (∃ r ∈ s.roles, (r.name == "admin" && r.tenant == t.id) = true) →
      (∃ r ∈ s.roles, (r.name == "instructor" && r.tenant == t.id) = true) →
      (∃ r ∈ s.roles, (r.name == "student" && r.tenant == t.id) = true) →
      seed_roles_for_tenant s t = (s, 0)) := by
  refine ⟨seed_roles_twice_noop, ?_, ?_, seed_all_present⟩
  · intro s t h
    rw [seed_roles_twice_noop s t]
    exact seed_roles_fresh s t h
  · intro s t
    obtain ⟨ta, hta⟩ := role_get_or_create_prefix s "admin" t.id
      "Full access to tenant resources and user management" adminPermissions
    obtain ⟨tb, htb⟩ := role_get_or_create_prefix
      (role_get_or_create s "admin" t.id
        "Full access to tenant resources and user management" adminPermissions).1
      "instructor" t.id
      "Create and manage courses, assessments, and grade students"
      instructorPermissions
    obtain ⟨tc, htc⟩ := role_get_or_create_prefix
      (role_get_or_create
        (role_get_or_create s "admin" t.id
          "Full access to tenant resources and user management" adminPermissions).1
        "instructor" t.id
        "Create and manage courses, assessments, and grade students"
        instructorPermissions).1 "student" t.id
      "Enroll in courses and submit assessments" studentPermissions
    refine ⟨ta ++ tb ++ tc, ?_⟩
    show (role_get_or_create
        (role_get_or_create
          (role_get_or_create s "admin" t.id
            "Full access to tenant resources and user management"
            adminPermissions).1 "instructor" t.id
          "Create and manage courses, assessments, and grade students"
          instructorPermissions).1 "student" t.id
        "Enroll in courses and submit assessments" studentPermissions).1.roles =
      s.roles ++ (ta ++ tb ++ tc)
    rw [htc, htb, hta]
    simp [List.append_assoc]

/-- C7 witness: seeding twice for a tenant with no prior roles in the empty
store yields exactly 3 roles, not 6. -/
theorem seed_default_roles_idempotent_witness :
    ((seed_roles_for_tenant (seed_roles_for_tenant emptyStore tenant_one_active).1
        tenant_one_active).1.roles.filter
      (fun r => r.tenant == tenant_one_active.id)).length = 3 :=
  seed_default_roles_idempotent.2.1 emptyStore tenant_one_active
    (by intro r hr; cases hr)

theorem create_default_roles_fresh (s : Store) (t : Tenant)
    (h : ∀ r ∈ s.roles, r.tenant ≠ t.id) :
    create_default_roles s t =
      { store := { s with
          roles := s.roles ++
            [({ id := s.next_role_id, tenant := t.id, name := "admin",
                description := "Full access to tenant resources",
                permissions := adminPermissions, is_system_role := true } : Role)] ++
            [({ id := s.next_role_id + 1, tenant := t.id, name := "instructor",
                description := "Create and manage courses",
                permissions := instructorPermissions, is_system_role := true } : Role)] ++
            [({ id := s.next_role_id + 1 + 1, tenant := t.id, name := "student",
                description := "Enroll in courses",
                permissions := studentPermissions, is_system_role := true } : Role)],
          next_role_id := s.next_role_id + 1 + 1 + 1 },
        admin := { id := s.next_role_id, tenant := t.id, name := "admin",
                   description := "Full access to tenant resources",
                   permissions := adminPermissions, is_system_role := true },
        instructor := { id := s.next_role_id + 1, tenant := t.id, name := "instructor",
                        description := "Create and manage courses",
                        permissions := instructorPermissions, is_system_role := true },
        student := { id := s.next_role_id + 1 + 1, tenant := t.id, name := "student",
                     description := "Enroll in courses",
                     permissions := studentPermissions, is_system_role := true } } := by
  have hfa : s.roles.find? (fun x => x.name == "admin" && x.tenant == t.id) = none :=
    List.find?_eq_none.mpr fun x hx => by simp [h x hx]
  have e1 := role_get_or_create_none hfa "Full access to tenant resources" adminPermissions
  have hfb : ((role_get_or_create s "admin" t.id "Full access to tenant resources"
      adminPermissions).1.roles).find?
        (fun x => x.name == "instructor" && x.tenant == t.id) = none := by
    rw [e1]
    simp only []
    rw [List.find?_append, List.find?_eq_none.mpr fun x hx => by simp [h x hx]]
    simp
  have e2 := role_get_or_create_none hfb "Create and manage courses" instructorPermissions
  have hfc : ((role_get_or_create
      (role_get_or_create s "admin" t.id "Full access to tenant resources"
        adminPermissions).1 "instructor" t.id "Create and manage courses"
      instructorPermissions).1.roles).find?
        (fun x => x.name == "student" && x.tenant == t.id) = none := by
    rw [e2]
    simp only []
    rw [e1]
    simp only []
    rw [List.find?_append, List.find?_append,
      List.find?_eq_none.mpr fun x hx => by simp [h x hx]]
    simp
  have e3 := role_get_or_create_none hfc "Enroll in courses" studentPermissions
  have hchain : create_default_roles s t =
      { store := (role_get_or_create
          (role_get_or_create
            (role_get_or_create s "admin" t.id "Full access to tenant resources"
              adminPermissions).1 "instructor" t.id "Create and manage courses"
            instructorPermissions).1 "student" t.id "Enroll in courses"
          studentPermissions).1,
        admin := (role_get_or_create s "admin" t.id "Full access to tenant resources"
          adminPermissions).2.1,
        instructor := (role_get_or_create
          (role_get_or_create s "admin" t.id "Full access to tenant resources"
            adminPermissions).1 "instructor" t.id "Create and manage courses"
          instructorPermissions).2.1,
        student := (role_get_or_create
          (role_get_or_create
            (role_get_or_create s "admin" t.id "Full access to tenant resources"
              adminPermissions).1 "instructor" t.id "Create and manage courses"
            instructorPermissions).1 "student" t.id "Enroll in courses"
          studentPermissions).2.1 } := rfl
  rw [hchain, e3]
  simp only []
  rw [e2]
  simp only []
  rw [e1]

theorem create_tenant_with_admin_ok (hP : String → String) (s : Store)
    (td : TenantData) (ad : UserData)
    (h1 : s.tenants.any (fun x => x.subdomain == td.subdomain) = false)
    (h2 : ∀ r ∈ s.roles, r.tenant ≠ s.next_tenant_id)
    (h3 : users_conflict s.users s.next_tenant_id ad = false) :
    create_tenant_with_admin hP s td ad =
      ({ s with
          tenants := s.tenants ++
            [({ id := s.next_tenant_id, name := td.name, subdomain := td.subdomain,
                is_active := true } : Tenant)],
          users := s.users ++ [new_user_row hP s.next_user_id s.next_tenant_id ad true],
          roles := s.roles ++
            [({ id := s.next_role_id, tenant := s.next_tenant_id, name := "admin",
                description := "Full access to tenant resources",
                permissions := adminPermissions, is_system_role := true } : Role)] ++
            [({ id := s.next_role_id + 1, tenant := s.next_tenant_id,
                name := "instructor", description := "Create and manage courses",
                permissions := instructorPermissions, is_system_role := true } : Role)] ++
            [({ id := s.next_role_id + 1 + 1, tenant := s.next_tenant_id,
                name := "student", description := "Enroll in courses",
                permissions := studentPermissions, is_system_role := true } : Role)],
          user_roles := s.user_roles ++
            [({ id := s.next_user_role_id, user := s.next_user_id,
                role := s.next_role_id, tenant := s.next_tenant_id,
                assigned_by := none } : UserRole)],
          next_tenant_id := s.next_tenant_id + 1,
          next_user_id := s.next_user_id + 1,
          next_role_id := s.next_role_id + 1 + 1 + 1,
          next_user_role_id := s.next_user_role_id + 1 },
       .ok ({ id := s.next_tenant_id, name := td.name, subdomain := td.subdomain,
              is_active := true },
            new_user_row hP s.next_user_id s.next_tenant_id ad true)) := by
  have hseed := create_default_roles_fresh
    ({ s with
        tenants := s.tenants ++
          [({ id := s.next_tenant_id, name := td.name, subdomain := td.subdomain,
              is_active := true } : Tenant)],
        next_tenant_id := s.next_tenant_id + 1 })
    ({ id := s.next_tenant_id, name := td.name, subdomain := td.subdomain,
       is_active := true })
    (fun r hr => h2 r hr)
  unfold create_tenant_with_admin
  rw [h1]
  simp only [Bool.false_eq_true, if_false]
  rw [hseed]
  simp only []
  rw [h3]
  simp only [Bool.false_eq_true, if_false]
  rfl

theorem create_tenant_with_admin_rollback (hP : String → String) (s : Store)
    (td : TenantData) (ad : UserData) :
    ∀ e : String, (create_tenant_with_admin hP s td ad).2 = .error e →
      (create_tenant_with_admin hP s td ad).1 = s := by
  intro e
  unfold create_tenant_with_admin
  split
  · intro _
    rfl
  · simp only []
    split
    · intro _
      rfl
    · intro he
      exact absurd he (by simp)

/-- C5: with a fresh subdomain and a store whose rows do not collide with the
new tenant id, `create_tenant_with_admin` succeeds and the resulting store
holds the new active tenant, an admin user with the staff flag set, exactly the
three default roles with the §4.3 permission sets for that tenant, and a
UserRole granting the tenant's admin role to the admin user; any failure
(violated unique constraint) leaves the store exactly as before, so no tenant
persists without its admin user and role grant. -/
theorem create_tenant_with_admin_correct :
    (∀ (hP : String → String) (s : Store) (td : TenantData) (ad : UserData),
      s.tenants.any (fun x => x.subdomain == td.subdomain) = false →
      (∀ r ∈ s.roles, r.tenant ≠ s.next_tenant_id) →
      users_conflict s.users s.next_tenant_id ad = false →
      ∃ T A,
        (create_tenant_with_admin hP s td ad).2 = .ok (T, A) ∧
        T.subdomain = td.subdomain ∧ T.is_active = true ∧
        A.is_staff = true ∧ A.tenant = T.id ∧ A.username = ad.username ∧
        ((create_tenant_with_admin hP s td ad).1.roles.filter
            (fun r => r.tenant == T.id)).map (fun r => (r.name, r.permissions)) =
          [("admin", adminPermissions), ("instructor", instructorPermissions),
           ("student", studentPermissions)] ∧
        ∃ ar ∈ (create_tenant_with_admin hP s td ad).1.roles,
          ar.tenant = T.id ∧ ar.name = "admin" ∧
          ∃ ur ∈ (create_tenant_with_admin hP s td ad).1.user_roles,
            ur.user = A.id ∧ ur.role = ar.id ∧ ur.tenant = T.id) ∧
    (∀ (hP : String → String) (s : Store) (td : TenantData) (ad : UserData)
      (e : String),
      (create_tenant_with_admin hP s td ad).2 = .error e →
      (create_tenant_with_admin hP s td ad).1 = s) := by
  constructor
  · intro hP s td ad h1 h2 h3
    refine ⟨({ id := s.next_tenant_id, name := td.name, subdomain := td.subdomain, is_active := true } : Tenant),
      new_user_row hP s.next_user_id s.next_tenant_id ad true,
      ?_, rfl, rfl, rfl, rfl, rfl, ?_, ?_⟩
    · rw [create_tenant_with_admin_ok hP s td ad h1 h2 h3]
    · rw [create_tenant_with_admin_ok hP s td ad h1 h2 h3]
      simp only []
      rw [List.filter_append, List.filter_append, List.filter_append,
        List.filter_eq_nil_iff.mpr fun x hx => by simp [h2 x hx]]
      simp
    · rw [create_tenant_with_admin_ok hP s td ad h1 h2 h3]
      refine ⟨({ id := s.next_role_id, tenant := s.next_tenant_id, name := "admin", description := "Full access to tenant resources", permissions := adminPermissions, is_system_role := true } : Role),
        ?_, rfl, rfl, ?_⟩
      · exact List.mem_append_left _ (List.mem_append_left _
          (List.mem_append_right _ (List.mem_singleton.mpr rfl)))
      · exact ⟨_, List.mem_append_right _ (List.mem_singleton.mpr rfl), rfl, rfl, rfl⟩
  · exact create_tenant_with_admin_rollback

/-- C5 witness: registering tenant "testco" with its admin in the empty store
succeeds with a staff admin user. -/
theorem create_tenant_with_admin_correct_witness :
    ∃ T A,
      (create_tenant_with_admin (fun p => p ++ "#") emptyStore
          { name := "TestCo", subdomain := "testco" } admin_data).2 = .ok (T, A) ∧
      A.is_staff = true ∧ T.is_active = true := by
  obtain ⟨T, A, hok, _, hact, hstaff, _⟩ :=
    create_tenant_with_admin_correct.1 (fun p => p ++ "#") emptyStore
      { name := "TestCo", subdomain := "testco" } admin_data rfl
      (fun r hr => absurd hr (List.not_mem_nil r)) rfl
  exact ⟨T, A, hok, hstaff, hact⟩

/-! ## Reachable stores and the per-tenant user uniqueness invariant -/

/-- The per-tenant uniqueness invariant of `User.Meta.unique_together`: no two
distinct user rows share `(tenant, username)` or `(tenant, email)`. -/
def UsersUnique (s : Store) : Prop :=
  s.users.Pairwise fun a b =>
    ¬(a.tenant = b.tenant ∧ a.username = b.username) ∧
    ¬(a.tenant = b.tenant ∧ a.email = b.email)

/-- The store invariant maintained by the services: tenant ids are below the
autoincrement counter, every user row references an existing tenant, and the
per-tenant user uniqueness holds. -/
def StoreInv (s : Store) : Prop :=
  (∀ t ∈ s.tenants, t.id < s.next_tenant_id) ∧
  (∀ u ∈ s.users, ∃ t ∈ s.tenants, t.id = u.tenant) ∧
  UsersUnique s

theorem store_inv_congr {s1 s2 : Store} (h1 : s2.tenants = s1.tenants)
    (h2 : s2.users = s1.users) (h3 : s2.next_tenant_id = s1.next_tenant_id)
    (hinv : StoreInv s1) : StoreInv s2 :=
  ⟨by rw [h1, h3]; exact hinv.1,
   by rw [h2, h1]; exact hinv.2.1,
   by unfold UsersUnique; rw [h2]; exact hinv.2.2⟩

theorem role_get_or_create_frame (s : Store) (n : String) (tid : Nat)
    (d : String) (p : List String) :
    (role_get_or_create s n tid d p).1.users = s.users ∧
    (role_get_or_create s n tid d p).1.tenants = s.tenants ∧
    (role_get_or_create s n tid d p).1.next_tenant_id = s.next_tenant_id ∧
    (role_get_or_create s n tid d p).1.next_user_id = s.next_user_id := by
  unfold role_get_or_create
  split <;> exact ⟨rfl, rfl, rfl, rfl⟩

theorem create_default_roles_frame (s : Store) (t : Tenant) :
    (create_default_roles s t).store.users = s.users ∧
    (create_default_roles s t).store.tenants = s.tenants ∧
    (create_default_roles s t).store.next_tenant_id = s.next_tenant_id ∧
    (create_default_roles s t).store.next_user_id = s.next_user_id := by
  have c1 := role_get_or_create_frame s "admin" t.id
    "Full access to tenant resources" adminPermissions
  have c2 := role_get_or_create_frame
    (role_get_or_create s "admin" t.id "Full access to tenant resources"
      adminPermissions).1 "instructor" t.id "Create and manage courses"
    instructorPermissions
  have c3 := role_get_or_create_frame
    (role_get_or_create
      (role_get_or_create s "admin" t.id "Full access to tenant resources"
        adminPermissions).1 "instructor" t.id "Create and manage courses"
      instructorPermissions).1 "student" t.id "Enroll in courses" studentPermissions
  exact ⟨c3.1.trans (c2.1.trans c1.1), c3.2.1.trans (c2.2.1.trans c1.2.1),
    c3.2.2.1.trans (c2.2.2.1.trans c1.2.2.1),
    c3.2.2.2.trans (c2.2.2.2.trans c1.2.2.2)⟩

theorem assign_role_frame (s : Store) (u : User) (r : Role) (t : Tenant)
    (ab : Option User) :
    (assign_role s u r t ab).1.users = s.users ∧
    (assign_role s u r t ab).1.tenants = s.tenants ∧
    (assign_role s u r t ab).1.next_tenant_id = s.next_tenant_id := by
  unfold assign_role
  split
  · exact ⟨rfl, rfl, rfl⟩
  · split
    · exact ⟨rfl, rfl, rfl⟩
    · split
      · exact ⟨rfl, rfl, rfl⟩
      · split <;> exact ⟨rfl, rfl, rfl⟩

theorem seed_roles_frame (s : Store) (t : Tenant) :
    (seed_roles_for_tenant s t).1.users = s.users ∧
    (seed_roles_for_tenant s t).1.tenants = s.tenants ∧
    (seed_roles_for_tenant s t).1.next_tenant_id = s.next_tenant_id := by
  have c1 := role_get_or_create_frame s "admin" t.id
    "Full access to tenant resources and user management" adminPermissions
  have c2 := role_get_or_create_frame
    (role_get_or_create s "admin" t.id
      "Full access to tenant resources and user management" adminPermissions).1
    "instructor" t.id "Create and manage courses, assessments, and grade students"
    instructorPermissions
  have c3 := role_get_or_create_frame
    (role_get_or_create
      (role_get_or_create s "admin" t.id
        "Full access to tenant resources and user management" adminPermissions).1
      "instructor" t.id
      "Create and manage courses, assessments, and grade students"
      instructorPermissions).1 "student" t.id
    "Enroll in courses and submit assessments" studentPermissions
  exact ⟨c3.1.trans (c2.1.trans c1.1), c3.2.1.trans (c2.2.1.trans c1.2.1),
    c3.2.2.1.trans (c2.2.2.1.trans c1.2.2.1)⟩

theorem create_tenant_with_admin_cases (hP : String → String) (s : Store)
    (td : TenantData) (ad : UserData) :
    (create_tenant_with_admin hP s td ad).1 = s ∨
    ((create_tenant_with_admin hP s td ad).1.tenants =
        s.tenants ++ [({ id := s.next_tenant_id, name := td.name, subdomain := td.subdomain, is_active := true } : Tenant)] ∧
      (create_tenant_with_admin hP s td ad).1.users =
        s.users ++ [new_user_row hP s.next_user_id s.next_tenant_id ad true] ∧
      (create_tenant_with_admin hP s td ad).1.next_tenant_id =
        s.next_tenant_id + 1) := by
  have hframe := create_default_roles_frame
    ({ s with
        tenants := s.tenants ++
          [({ id := s.next_tenant_id, name := td.name, subdomain := td.subdomain,
              is_active := true } : Tenant)],
        next_tenant_id := s.next_tenant_id + 1 })
    ({ id := s.next_tenant_id, name := td.name, subdomain := td.subdomain,
       is_active := true })
  unfold create_tenant_with_admin
  split
  · left
    rfl
  · simp only []
    split
    · left
      rfl
    · right
      refine ⟨?_, ?_, ?_⟩
      · exact hframe.2.1
      · rw [hframe.1, hframe.2.2.2]
      · exact hframe.2.2.1

theorem store_inv_create_user (hP : String → String) (s : Store) (ud : UserData)
    (t : Tenant) (adr : Bool) (ht : t ∈ s.tenants) (hinv : StoreInv s) :
    StoreInv (create_user hP s ud t adr).1 := by
  rcases hc : users_conflict s.users t.id ud with _ | _
  · obtain ⟨hok, husers, htenants, hnext⟩ := create_user_ok hP s ud t adr hc
    have hall : ∀ a ∈ s.users,
        ¬(a.tenant = t.id ∧ (a.username = ud.username ∨ a.email = ud.email)) := by
      intro a ha
      have := List.any_eq_false.mp hc a ha
      simp only [Bool.and_eq_true, Bool.or_eq_true, beq_iff_eq, not_and, not_or] at this
      intro hcon
      rcases hcon.2 with hx | hx
      · exact ((this hcon.1).1 hx)
      · exact ((this hcon.1).2 hx)
    refine ⟨?_, ?_, ?_⟩
    · rw [htenants, hnext]
      exact hinv.1
    · rw [husers, htenants]
      intro u hu
      rcases List.mem_append.mp hu with hu | hu
      · exact hinv.2.1 u hu
      · rw [List.mem_singleton] at hu
        subst hu
        exact ⟨t, ht, rfl⟩
    · unfold UsersUnique
      rw [husers]
      refine List.pairwise_append.mpr ⟨hinv.2.2, List.pairwise_singleton _ _, ?_⟩
      intro a ha b hb
      rw [List.mem_singleton] at hb
      subst hb
      have := hall a ha
      constructor
      · intro hcon
        exact this ⟨hcon.1, Or.inl hcon.2⟩
      · intro hcon
        exact this ⟨hcon.1, Or.inr hcon.2⟩
  · rw [create_user_error hP s ud t adr hc]
    exact hinv

theorem store_inv_create_tenant (hP : String → String) (s : Store)
    (td : TenantData) (ad : UserData) (hinv : StoreInv s) :
    StoreInv (create_tenant_with_admin hP s td ad).1 := by
  rcases create_tenant_with_admin_cases hP s td ad with h | ⟨ht, hu, hn⟩
  · rw [h]
    exact hinv
  · have hbelow : ∀ a ∈ s.users, a.tenant ≠ s.next_tenant_id := by
      intro a ha hcon
      obtain ⟨x, hx, hxid⟩ := hinv.2.1 a ha
      have := hinv.1 x hx
      omega
    refine ⟨?_, ?_, ?_⟩
    · rw [ht, hn]
      intro x hx
      rcases List.mem_append.mp hx with hx | hx
      · have := hinv.1 x hx
        omega
      · rw [List.mem_singleton] at hx
        subst hx
        exact Nat.lt_succ_self _
    · rw [hu, ht]
      intro u hu2
      rcases List.mem_append.mp hu2 with hu2 | hu2
      · obtain ⟨x, hx, hxid⟩ := hinv.2.1 u hu2
        exact ⟨x, List.mem_append_left _ hx, hxid⟩
      · rw [List.mem_singleton] at hu2
        subst hu2
        exact ⟨_, List.mem_append_right _ (List.mem_singleton.mpr rfl), rfl⟩
    · unfold UsersUnique
      rw [hu]
      refine List.pairwise_append.mpr ⟨hinv.2.2, List.pairwise_singleton _ _, ?_⟩
      intro a ha b hb
      rw [List.mem_singleton] at hb
      subst hb
      have hne : a.tenant ≠ s.next_tenant_id := hbelow a ha
      exact ⟨fun hcon => hne hcon.1, fun hcon => hne hcon.1⟩

/-- The stores reachable from the empty database through the store-mutating
service operations; every operation's object arguments are rows of the store
where the operation's behaviour depends on it. -/
inductive Reachable : Store → Prop where
  | base : Reachable emptyStore
  | create_user_step (s : Store) (hP : String → String) (ud : UserData)
      (t : Tenant) (adr : Bool) (hs : Reachable s) (ht : t ∈ s.tenants) :
      Reachable (create_user hP s ud t adr).1
  | create_tenant_step (s : Store) (hP : String → String) (td : TenantData)
      (ad : UserData) (hs : Reachable s) :
      Reachable (create_tenant_with_admin hP s td ad).1
  | assign_role_step (s : Store) (u : User) (r : Role) (t : Tenant)
      (ab : Option User) (hs : Reachable s) :
      Reachable (assign_role s u r t ab).1
  | seed_step (s : Store) (t : Tenant) (hs : Reachable s) :
      Reachable (seed_roles_for_tenant s t).1

theorem reachable_store_inv : ∀ s : Store, Reachable s → StoreInv s := by
  intro s h
  induction h with
  | base =>
    exact ⟨fun t ht => absurd ht (List.not_mem_nil t),
      fun u hu => absurd hu (List.not_mem_nil u), List.Pairwise.nil⟩
  | create_user_step s hP ud t adr hs ht ih =>
    exact store_inv_create_user hP s ud t adr ht ih
  | create_tenant_step s hP td ad hs ih =>
    exact store_inv_create_tenant hP s td ad ih
  | assign_role_step s u r t ab hs ih =>
    have hf := assign_role_frame s u r t ab
    exact store_inv_congr hf.2.1 hf.1 hf.2.2 ih
  | seed_step s t hs ih =>
    have hf := seed_roles_frame s t
    exact store_inv_congr hf.2.1 hf.1 hf.2.2 ih

/-- C6: username/email uniqueness is per-tenant, not global — the same user
data can be created in two different tenants, while a second creation within
one tenant fails with the unique-constraint error and leaves the store as it
was after the first creation; and every store reachable through the service
operations satisfies the `(tenant, username)` / `(tenant, email)` uniqueness
invariant. -/
theorem user_uniqueness_per_tenant :
    (∀ (hP : String → String) (s : Store) (ud : UserData) (t1 t2 : Tenant)
      (a1 a2 : Bool),
      t1.id ≠ t2.id →
      users_conflict s.users t1.id ud = false →
      users_conflict s.users t2.id ud = false →
      (∃ u1, (create_user hP s ud t1 a1).2 = .ok u1 ∧
        u1.username = ud.username ∧ u1.tenant = t1.id) ∧
      (∃ u2, (create_user hP (create_user hP s ud t1 a1).1 ud t2 a2).2 = .ok u2 ∧
        u2.username = ud.username ∧ u2.tenant = t2.id)) ∧
    (∀ (hP : String → String) (s : Store) (ud : UserData) (t : Tenant)
      (a1 a2 : Bool),
      users_conflict s.users t.id ud = false →
      create_user hP (create_user hP s ud t a1).1 ud t a2 =
        ((create_user hP s ud t a1).1, .error "UNIQUE constraint failed: users")) ∧
    (∀ s : Store, Reachable s → UsersUnique s) := by
  refine ⟨?_, ?_, fun s h => (reachable_store_inv s h).2.2⟩
  · intro hP s ud t1 t2 a1 a2 hne hc1 hc2
    obtain ⟨hok1, husers1, _, _⟩ := create_user_ok hP s ud t1 a1 hc1
    have hc2' : users_conflict (create_user hP s ud t1 a1).1.users t2.id ud = false := by
      unfold users_conflict
      rw [husers1, List.any_append]
      have hrow : ((new_user_row hP s.next_user_id t1.id ud false).tenant == t2.id) = false :=
        beq_eq_false_iff_ne.mpr hne
      unfold users_conflict at hc2
      rw [hc2]
      simp [hrow]
    obtain ⟨hok2, _, _, _⟩ := create_user_ok hP _ ud t2 a2 hc2'
    exact ⟨⟨_, hok1, rfl, rfl⟩, ⟨_, hok2, rfl, rfl⟩⟩
  · intro hP s ud t a1 a2 hc
    obtain ⟨_, husers1, _, _⟩ := create_user_ok hP s ud t a1 hc
    have hc' : users_conflict (create_user hP s ud t a1).1.users t.id ud = true := by
      unfold users_conflict
      rw [husers1, List.any_append]
      simp
      exact Or.inr ⟨rfl, Or.inl rfl⟩
    exact create_user_error hP _ ud t a2 hc'

/-- C6 witness: creating the same user data twice in the same tenant fails the
second time with the unique-constraint error and an unchanged store. -/
theorem user_uniqueness_per_tenant_witness :
    create_user (fun p => p ++ "#")
        (create_user (fun p => p ++ "#") emptyStore admin_data tenant_one_active
          true).1 admin_data tenant_one_active true =
      ((create_user (fun p => p ++ "#") emptyStore admin_data tenant_one_active
          true).1, .error "UNIQUE constraint failed: users") :=
  user_uniqueness_per_tenant.2.1 (fun p => p ++ "#") emptyStore admin_data
    tenant_one_active true true rfl

end LMS
